import Mathlib

/-!
Shallow embedding of the `examen2-catalogo` service (FastAPI + SQLAlchemy CRUD
over Clients / Addresses / Products, plus a CloudWatch metrics collector).

The store is modelled as three lists of rows; each HTTP endpoint of
`app/main.py` becomes a function from a store and a (already parsed) payload
to an outcome together with the store after the request.  Pydantic validation
(`app/schemas.py`) runs before the handler body, exactly as FastAPI does, and
a failed validation yields a 422 outcome with the store untouched.  The
`unique=True` constraint on the `rfc` column of `app/models.py` is enforced at
commit time by the database: a violating commit raises `IntegrityError`, which
no handler catches, so FastAPI turns it into a generic 500 server error; that
path is modelled by the `serverError` outcome.
-/

namespace Catalogos

/-- `TipoDireccion` enum of `app/schemas.py` / `app/models.py`. -/
inductive TipoDireccion where
  | FACTURACION
  | ENVIO
deriving DecidableEq, Repr

/-- A row of the `clientes` table (`app/models.py`, class `Cliente`). -/
structure Cliente where
  id : Nat
  razon_social : String
  nombre_comercial : String
  rfc : String
  correo_electronico : String
  telefono : String
deriving DecidableEq, Repr

/-- A row of the `domicilios` table (`app/models.py`, class `Domicilio`). -/
structure Domicilio where
  id : Nat
  domicilio : String
  colonia : String
  municipio : String
  estado : String
  tipo_direccion : TipoDireccion
  cliente_id : Nat
deriving DecidableEq, Repr

/-- A row of the `productos` table (`app/models.py`, class `Producto`).
`precio_base` is a Python float; it is modelled as a rational number, which is
exact for every value the claims exercise. -/
structure Producto where
  id : Nat
  nombre : String
  unidad_medida : String
  precio_base : Rat
deriving DecidableEq, Repr

/-- The whole relational store: the three tables. -/
structure Store where
  clientes : List Cliente
  domicilios : List Domicilio
  productos : List Producto
deriving DecidableEq, Repr

/-- Character class `[A-ZÑ&]` of the tax-id regex in `app/schemas.py`. -/
def isRfcLetra (c : Char) : Bool :=
  (decide ('A' ≤ c) && decide (c ≤ 'Z')) || c == 'Ñ' || c == '&'

/-- Character class `[A-Z\d]` of the tax-id regex (`\d` modelled as the ASCII
digits, the only digits the claims exercise). -/
def isRfcUltimo (c : Char) : Bool :=
  (decide ('A' ≤ c) && decide (c ≤ 'Z')) || c.isDigit

/-- The anchored regex of `ClienteBase.rfc` in `app/schemas.py`:
`^[A-ZÑ&]{3,4}\d{6}[A-Z\d]{3}$`.  An anchored match forces total length 12
(prefix of 3) or 13 (prefix of 4), so the prefix length is `length - 9`. -/
def matchesRfcPattern (s : String) : Bool :=
  let cs := s.toList
  let n := cs.length
  (n == 12 || n == 13) &&
  (cs.take (n - 9)).all isRfcLetra &&
  ((cs.drop (n - 9)).take 6).all Char.isDigit &&
  (cs.drop (n - 3)).all isRfcUltimo

/-- `EmailStr` of pydantic delegates to the external `email-validator`
package; none of the claims exercises e-mail validation, so it is modelled
only as requiring an `@` somewhere in the string (true of every concrete
e-mail used below and accepted by the real validator). -/
def emailStrOk (s : String) : Bool :=
  s.toList.contains '@'

/-- Payload of `POST /clientes` (`ClienteCreate` = `ClienteBase`). -/
structure ClienteCreate where
  razon_social : String
  nombre_comercial : String
  rfc : String
  correo_electronico : String
  telefono : String
deriving DecidableEq, Repr

/-- Pydantic validation of `ClienteBase` (`app/schemas.py` lines 16-21):
length bounds on every field, the regex pattern on `rfc`, `EmailStr`. -/
def validClienteCreate (p : ClienteCreate) : Bool :=
  (1 ≤ p.razon_social.length && p.razon_social.length ≤ 255) &&
  (1 ≤ p.nombre_comercial.length && p.nombre_comercial.length ≤ 255) &&
  (12 ≤ p.rfc.length && p.rfc.length ≤ 13) && matchesRfcPattern p.rfc &&
  emailStrOk p.correo_electronico &&
  (10 ≤ p.telefono.length && p.telefono.length ≤ 20)

/-- Payload of `PUT /clientes/{id}` (`ClienteUpdate`): every field optional;
a `none` field was absent from the JSON body (pydantic "unset"). -/
structure ClienteUpdate where
  razon_social : Option String
  nombre_comercial : Option String
  rfc : Option String
  correo_electronico : Option String
  telefono : Option String
deriving DecidableEq, Repr

/-- Pydantic validation of `ClienteUpdate` (`app/schemas.py` lines 28-33).
Note: the `rfc` field of `ClienteUpdate` carries only the 12-13 length
bounds - the regex `pattern` of `ClienteBase.rfc` is NOT repeated there. -/
def validClienteUpdate (u : ClienteUpdate) : Bool :=
  u.razon_social.all (fun s => 1 ≤ s.length && s.length ≤ 255) &&
  u.nombre_comercial.all (fun s => 1 ≤ s.length && s.length ≤ 255) &&
  u.rfc.all (fun s => 12 ≤ s.length && s.length ≤ 13) &&
  u.correo_electronico.all emailStrOk &&
  u.telefono.all (fun s => 10 ≤ s.length && s.length ≤ 20)

/-- Payload of `POST /clientes/{id}/domicilios` (`DomicilioCreate`). -/
structure DomicilioCreate where
  domicilio : String
  colonia : String
  municipio : String
  estado : String
  tipo_direccion : TipoDireccion
deriving DecidableEq, Repr

/-- Pydantic validation of `DomicilioBase` (`app/schemas.py` lines 45-50). -/
def validDomicilioCreate (p : DomicilioCreate) : Bool :=
  (1 ≤ p.domicilio.length && p.domicilio.length ≤ 500) &&
  (1 ≤ p.colonia.length && p.colonia.length ≤ 255) &&
  (1 ≤ p.municipio.length && p.municipio.length ≤ 255) &&
  (1 ≤ p.estado.length && p.estado.length ≤ 255)

/-- Payload of `PUT /domicilios/{id}` (`DomicilioUpdate`). -/
structure DomicilioUpdate where
  domicilio : Option String
  colonia : Option String
  municipio : Option String
  estado : Option String
  tipo_direccion : Option TipoDireccion
deriving DecidableEq, Repr

/-- Pydantic validation of `DomicilioUpdate` (`app/schemas.py` lines 57-62);
the enum field is typed, so any parsed value is already a member. -/
def validDomicilioUpdate (u : DomicilioUpdate) : Bool :=
  u.domicilio.all (fun s => 1 ≤ s.length && s.length ≤ 500) &&
  u.colonia.all (fun s => 1 ≤ s.length && s.length ≤ 255) &&
  u.municipio.all (fun s => 1 ≤ s.length && s.length ≤ 255) &&
  u.estado.all (fun s => 1 ≤ s.length && s.length ≤ 255)

/-- Payload of `POST /productos` (`ProductoCreate` = `ProductoBase`). -/
structure ProductoCreate where
  nombre : String
  unidad_medida : String
  precio_base : Rat
deriving DecidableEq, Repr

/-- Pydantic validation of `ProductoBase` (`app/schemas.py` lines 75-78):
length bounds and the strict positivity check `gt=0` on the price. -/
def validProductoCreate (p : ProductoCreate) : Bool :=
  (1 ≤ p.nombre.length && p.nombre.length ≤ 255) &&
  (1 ≤ p.unidad_medida.length && p.unidad_medida.length ≤ 50) &&
  decide (0 < p.precio_base)

/-- Payload of `PUT /productos/{id}` (`ProductoUpdate`). -/
structure ProductoUpdate where
  nombre : Option String
  unidad_medida : Option String
  precio_base : Option Rat
deriving DecidableEq, Repr

/-- Pydantic validation of `ProductoUpdate` (`app/schemas.py` lines 85-88). -/
def validProductoUpdate (u : ProductoUpdate) : Bool :=
  u.nombre.all (fun s => 1 ≤ s.length && s.length ≤ 255) &&
  u.unidad_medida.all (fun s => 1 ≤ s.length && s.length ≤ 50) &&
  u.precio_base.all (fun q => decide (0 < q))

/-- Result of one request.  `ok status body` is a successful response;
`validationError` is FastAPI/pydantic's structured 422 rejection;
`notFound detail` is the `HTTPException(404, detail)` raised by the handlers;
`serverError` is an exception nobody catches (e.g. `IntegrityError` at
commit), which FastAPI reports as a generic 500. -/
inductive Outcome (α : Type) where
  | ok (status : Nat) (body : α)
  | validationError
  | notFound (detail : String)
  | serverError
deriving DecidableEq, Repr

/-- HTTP status code carried by an outcome. -/
def Outcome.statusCode : Outcome α → Nat
  | .ok s _ => s
  | .validationError => 422
  | .notFound _ => 404
  | .serverError => 500

/-- Auto-incrementing id assignment: one more than the largest id in use. -/
def next_id (ids : List Nat) : Nat :=
  ids.foldr max 0 + 1

/-- `POST /clientes` (`crear_cliente`, `app/main.py` lines 82-89).  Pydantic
validates the payload first (422); the handler itself inserts and commits
unconditionally, so a duplicate `rfc` hits the `unique=True` column
constraint: the commit raises `IntegrityError`, uncaught, i.e. a 500. -/
def crear_cliente (st : Store) (p : ClienteCreate) : Outcome Cliente × Store :=
  if !validClienteCreate p then (.validationError, st)
  else if st.clientes.any (fun c => c.rfc == p.rfc) then (.serverError, st)
  else
    let c : Cliente :=
      { id := next_id (st.clientes.map (·.id)),
        razon_social := p.razon_social,
        nombre_comercial := p.nombre_comercial,
        rfc := p.rfc,
        correo_electronico := p.correo_electronico,
        telefono := p.telefono }
    (.ok 201 c, { st with clientes := st.clientes ++ [c] })

/-- `GET /clientes` (`listar_clientes`, `app/main.py` lines 91-95):
`db.query(Cliente).offset(skip).limit(limit).all()`. -/
def listar_clientes (st : Store) (skip limit : Nat) :
    Outcome (List Cliente) × Store :=
  (.ok 200 ((st.clientes.drop skip).take limit), st)

/-- `GET /clientes/{id}` (`obtener_cliente`, `app/main.py` lines 97-103). -/
def obtener_cliente (st : Store) (cliente_id : Nat) : Outcome Cliente × Store :=
  match st.clientes.find? (fun c => c.id == cliente_id) with
  | none => (.notFound "Cliente no encontrado", st)
  | some c => (.ok 200 c, st)

/-- The `for key, value in cliente.model_dump(exclude_unset=True)` merge of
`actualizar_cliente`: set exactly the fields present in the payload. -/
def applyClienteUpdate (c : Cliente) (u : ClienteUpdate) : Cliente :=
  { c with
    razon_social := u.razon_social.getD c.razon_social,
    nombre_comercial := u.nombre_comercial.getD c.nombre_comercial,
    rfc := u.rfc.getD c.rfc,
    correo_electronico := u.correo_electronico.getD c.correo_electronico,
    telefono := u.telefono.getD c.telefono }

/-- `PUT /clientes/{id}` (`actualizar_cliente`, `app/main.py` lines 105-117).
If the merged row's `rfc` collides with a DIFFERENT client's `rfc`, the
commit violates the unique column constraint and raises `IntegrityError`,
uncaught (500); the transaction is rolled back, leaving the store as it was. -/
def actualizar_cliente (st : Store) (cliente_id : Nat) (u : ClienteUpdate) :
    Outcome Cliente × Store :=
  if !validClienteUpdate u then (.validationError, st)
  else
    match st.clientes.find? (fun c => c.id == cliente_id) with
    | none => (.notFound "Cliente no encontrado", st)
    | some c =>
      let c2 := applyClienteUpdate c u
      if st.clientes.any (fun o => !(o.id == cliente_id) && o.rfc == c2.rfc) then
        (.serverError, st)
      else
        (.ok 200 c2,
         { st with clientes :=
             st.clientes.map (fun o => if o.id == cliente_id then c2 else o) })

/-- `DELETE /clientes/{id}` (`eliminar_cliente`, `app/main.py` lines 119-128).
The `domicilios` relationship carries `cascade="all, delete-orphan"`
(`app/models.py` line 27), so `db.delete(cliente)` also deletes every
`Domicilio` whose `cliente_id` is this client's id. -/
def eliminar_cliente (st : Store) (cliente_id : Nat) : Outcome Unit × Store :=
  if st.clientes.any (fun c => c.id == cliente_id) then
    (.ok 204 (),
     { st with
       clientes := st.clientes.filter (fun c => !(c.id == cliente_id)),
       domicilios := st.domicilios.filter (fun d => !(d.cliente_id == cliente_id)) })
  else (.notFound "Cliente no encontrado", st)

/-- `POST /clientes/{id}/domicilios` (`crear_domicilio`, `app/main.py`
lines 132-143): 404 when the parent client is missing. -/
def crear_domicilio (st : Store) (cliente_id : Nat) (p : DomicilioCreate) :
    Outcome Domicilio × Store :=
  if !validDomicilioCreate p then (.validationError, st)
  else if !(st.clientes.any (fun c => c.id == cliente_id)) then
    (.notFound "Cliente no encontrado", st)
  else
    let d : Domicilio :=
      { id := next_id (st.domicilios.map (·.id)),
        domicilio := p.domicilio,
        colonia := p.colonia,
        municipio := p.municipio,
        estado := p.estado,
        tipo_direccion := p.tipo_direccion,
        cliente_id := cliente_id }
    (.ok 201 d, { st with domicilios := st.domicilios ++ [d] })

/-- `GET /clientes/{id}/domicilios` (`listar_domicilios`, `app/main.py`
lines 145-149): `db.query(Domicilio).filter(cliente_id == ...).all()` -
no existence check on the client and no offset/limit parameters. -/
def listar_domicilios (st : Store) (cliente_id : Nat) :
    Outcome (List Domicilio) × Store :=
  (.ok 200 (st.domicilios.filter (fun d => d.cliente_id == cliente_id)), st)

/-- `GET /domicilios/{id}` (`obtener_domicilio`, `app/main.py` 151-157). -/
def obtener_domicilio (st : Store) (domicilio_id : Nat) :
    Outcome Domicilio × Store :=
  match st.domicilios.find? (fun d => d.id == domicilio_id) with
  | none => (.notFound "Domicilio no encontrado", st)
  | some d => (.ok 200 d, st)

/-- Field merge of `actualizar_domicilio`. -/
def applyDomicilioUpdate (d : Domicilio) (u : DomicilioUpdate) : Domicilio :=
  { d with
    domicilio := u.domicilio.getD d.domicilio,
    colonia := u.colonia.getD d.colonia,
    municipio := u.municipio.getD d.municipio,
    estado := u.estado.getD d.estado,
    tipo_direccion := u.tipo_direccion.getD d.tipo_direccion }

/-- `PUT /domicilios/{id}` (`actualizar_domicilio`, `app/main.py` 159-171).
No unique constraint is involved here. -/
def actualizar_domicilio (st : Store) (domicilio_id : Nat) (u : DomicilioUpdate) :
    Outcome Domicilio × Store :=
  if !validDomicilioUpdate u then (.validationError, st)
  else
    match st.domicilios.find? (fun d => d.id == domicilio_id) with
    | none => (.notFound "Domicilio no encontrado", st)
    | some d =>
      let d2 := applyDomicilioUpdate d u
      (.ok 200 d2,
       { st with domicilios :=
           st.domicilios.map (fun o => if o.id == domicilio_id then d2 else o) })

/-- `POST /productos` (`crear_producto`, `app/main.py` lines 186-193). -/
def crear_producto (st : Store) (p : ProductoCreate) : Outcome Producto × Store :=
  if !validProductoCreate p then (.validationError, st)
  else
    let prod : Producto :=
      { id := next_id (st.productos.map (·.id)),
        nombre := p.nombre,
        unidad_medida := p.unidad_medida,
        precio_base := p.precio_base }
    (.ok 201 prod, { st with productos := st.productos ++ [prod] })

/-- `GET /productos` (`listar_productos`, `app/main.py` lines 195-199). -/
def listar_productos (st : Store) (skip limit : Nat) :
    Outcome (List Producto) × Store :=
  (.ok 200 ((st.productos.drop skip).take limit), st)

/-- `GET /productos/{id}` (`obtener_producto`, `app/main.py` 201-207). -/
def obtener_producto (st : Store) (producto_id : Nat) :
    Outcome Producto × Store :=
  match st.productos.find? (fun p => p.id == producto_id) with
  | none => (.notFound "Producto no encontrado", st)
  | some p => (.ok 200 p, st)

/-- Field merge of `actualizar_producto`. -/
def applyProductoUpdate (p : Producto) (u : ProductoUpdate) : Producto :=
  { p with
    nombre := u.nombre.getD p.nombre,
    unidad_medida := u.unidad_medida.getD p.unidad_medida,
    precio_base := u.precio_base.getD p.precio_base }

/-- `PUT /productos/{id}` (`actualizar_producto`, `app/main.py` 209-221). -/
def actualizar_producto (st : Store) (producto_id : Nat) (u : ProductoUpdate) :
    Outcome Producto × Store :=
  if !validProductoUpdate u then (.validationError, st)
  else
    match st.productos.find? (fun p => p.id == producto_id) with
    | none => (.notFound "Producto no encontrado", st)
    | some p =>
      let p2 := applyProductoUpdate p u
      (.ok 200 p2,
       { st with productos :=
           st.productos.map (fun o => if o.id == producto_id then p2 else o) })

/-!  Metrics (`app/metrics.py` and the middleware of `app/main.py`). -/

/-- Python truthiness of an environment variable as read by `os.getenv`:
absent (`None`) and the empty string are falsy. -/
def envTruthy (v : Option String) : Bool :=
  match v with
  | none => false
  | some s => s != ""

/-- State of a `MetricsCollector` (`app/metrics.py` lines 23-48).
`cloudwatch = true` models `self.cloudwatch` holding a boto3 client;
`false` models `self.cloudwatch is None` (local logging only). -/
structure MetricsCollector where
  metricNamespace : String
  environment : String
  region : String
  cloudwatch : Bool
deriving DecidableEq, Repr

/-- `MetricsCollector.__init__`: the client is created only when
`aws_key and aws_secret or aws_profile` is truthy (Python precedence:
`(key and secret) or profile`), and every exception during creation is
caught, leaving `cloudwatch` at `None`; `clientInitOk` models whether
`boto3.client` succeeded. -/
def MetricsCollector.init (nspace env region : String)
    (aws_key aws_secret aws_profile : Option String) (clientInitOk : Bool) :
    MetricsCollector :=
  { metricNamespace := nspace,
    environment := env,
    region := region,
    cloudwatch :=
      ((envTruthy aws_key && envTruthy aws_secret) || envTruthy aws_profile)
        && clientInitOk }

/-- Behaviour of one `put_metric_data` call against the sink.
`raisesClientError` is a `botocore.exceptions.ClientError` (an HTTP error
response from the service); `raisesOtherError` is any other exception, e.g.
the `EndpointConnectionError` (a `BotoCoreError`, not a `ClientError`)
raised when the endpoint is unreachable. -/
inductive SinkBehavior where
  | succeeds
  | raisesClientError
  | raisesOtherError
deriving DecidableEq, Repr

/-- What one `record_*` call did. `raised` means an exception escaped the
method into its caller. -/
inductive RecordOutcome where
  | localOnly
  | sent
  | errorLogged
  | raised
deriving DecidableEq, Repr

/-- `MetricsCollector.record_latency` (`app/metrics.py` lines 61-88): always
logs locally; calls the sink only when a client exists; the surrounding
`try` catches exactly `ClientError`, so any other exception propagates. -/
def record_latency (m : MetricsCollector) (sink : SinkBehavior) : RecordOutcome :=
  if m.cloudwatch then
    match sink with
    | .succeeds => .sent
    | .raisesClientError => .errorLogged
    | .raisesOtherError => .raised
  else .localOnly

/-- `_get_http_status_range` (`app/metrics.py` lines 50-59). -/
def get_http_status_range (status_code : Int) : String :=
  if 200 ≤ status_code ∧ status_code < 300 then "2xx"
  else if 400 ≤ status_code ∧ status_code < 500 then "4xx"
  else if 500 ≤ status_code ∧ status_code < 600 then "5xx"
  else "other"

/-- `MetricsCollector.record_http_status` (`app/metrics.py` lines 90-120):
same structure as `record_latency` (bucket the code, log, then send),
with the same `except ClientError` clause. -/
def record_http_status (m : MetricsCollector) (status_code : Int)
    (sink : SinkBehavior) : RecordOutcome :=
  let _range := get_http_status_range status_code
  if m.cloudwatch then
    match sink with
    | .succeeds => .sent
    | .raisesClientError => .errorLogged
    | .raisesOtherError => .raised
  else .localOnly

/-- The `metrics_middleware` of `app/main.py` (lines 57-73) calls
`record_latency` then `record_http_status` after the response is computed;
the request fails iff either call lets an exception escape. -/
def metrics_middleware_fails (m : MetricsCollector) (status_code : Int)
    (latencySink statusSink : SinkBehavior) : Bool :=
  decide (record_latency m latencySink = .raised) ||
  decide (record_http_status m status_code statusSink = .raised)

/-! ### Concrete rows and payloads used by the claim checks -/

/-- A valid client row (the payload of `tests/test_catalogos.py`). -/
def cliente1 : Cliente :=
  { id := 1
    razon_social := "Empresa Test SA de CV"
    nombre_comercial := "Test Company"
    rfc := "TEST123456ABC"
    correo_electronico := "test@empresa.com"
    telefono := "5551234567" }

/-- A store holding exactly `cliente1`. -/
def store1 : Store :=
  { clientes := [cliente1], domicilios := [], productos := [] }

/-- A partial update setting only the tax id, to a 12-character string that
does not match the tax-id regex. -/
def updateBadRfc : ClienteUpdate :=
  { razon_social := none
    nombre_comercial := none
    rfc := some "aaaaaaaaaaaa"
    correo_electronico := none
    telefono := none }

/-- A create payload whose tax id does not match the regex (valid length). -/
def createBadRfc : ClienteCreate :=
  { razon_social := "Empresa Test SA de CV"
    nombre_comercial := "Test Company"
    rfc := "aaaaaaaaaaaa"
    correo_electronico := "test@empresa.com"
    telefono := "5551234567" }

/-- `cliente1` after `updateBadRfc` has been applied. -/
def cliente1BadRfc : Cliente :=
  { cliente1 with rfc := "aaaaaaaaaaaa" }

/-- The store after updating `cliente1` with `updateBadRfc`. -/
def store1BadRfc : Store :=
  { clientes := [cliente1BadRfc], domicilios := [], productos := [] }

/-! ### C1 -/

/-- C1, counterexample.  The claim says EVERY write operation on Clients
(create and partial update) only persists tax ids matching the regex.  But
`ClienteUpdate.rfc` (`app/schemas.py` line 31) has no `pattern` constraint:
updating the stored client with `rfc = "aaaaaaaaaaaa"` (12 lowercase letters,
not matching `^[A-ZÑ&]{3,4}\d{6}[A-Z\d]{3}$`) passes validation, returns
200 and persists the non-matching tax id. -/
theorem C1_counterexample :
    validClienteUpdate updateBadRfc = true ∧
    actualizar_cliente store1 1 updateBadRfc = (.ok 200 cliente1BadRfc, store1BadRfc) ∧
    matchesRfcPattern "aaaaaaaaaaaa" = false := by decide

/-- C1 (amended): on create, a payload whose tax id does not match the fixed
regex is rejected with a structured 422 before persistence, and any client a
create persists has a tax id matching the regex; on partial update, however,
only the 12-13 length bounds are enforced on the tax id, so an accepted and
persisted update tax id need not match the regex. -/
theorem C1_rfc_validation (st : Store) (p : ClienteCreate) (cid : Nat)
    (u : ClienteUpdate) :
    (matchesRfcPattern p.rfc = false → crear_cliente st p = (.validationError, st)) ∧
    (∀ st2 c, crear_cliente st p = (.ok 201 c, st2) →
      matchesRfcPattern c.rfc = true) ∧
    (∀ st2 c r, u.rfc = some r → actualizar_cliente st cid u = (.ok 200 c, st2) →
      c.rfc = r ∧ 12 ≤ r.length ∧ r.length ≤ 13) := by
  refine ⟨?_, ?_, ?_⟩
  · intro h
    have hv : validClienteCreate p = false := by
      unfold validClienteCreate
      rw [h]
      simp
    simp [crear_cliente, hv]
  · intro st2 c h
    by_cases hv : validClienteCreate p
    · by_cases hd : st.clientes.any (fun x => x.rfc == p.rfc)
      · simp [crear_cliente, hv, hd] at h
      · simp [crear_cliente, hv, hd] at h
        obtain ⟨hc, -⟩ := h
        subst hc
        have hm := hv
        unfold validClienteCreate at hm
        simp only [Bool.and_eq_true] at hm
        exact hm.1.1.2
    · simp [crear_cliente, hv] at h
  · intro st2 c r hr h
    by_cases hv : validClienteUpdate u
    · have hb : 12 ≤ r.length ∧ r.length ≤ 13 := by
        have hm := hv
        unfold validClienteUpdate at hm
        simp only [Bool.and_eq_true, hr, Option.all_some,
          decide_eq_true_eq] at hm
        exact hm.1.1.2
      unfold actualizar_cliente at h
      cases hfind : st.clientes.find? (fun x => x.id == cid) with
      | none => simp [hv, hfind] at h
      | some c0 =>
        by_cases hdup : st.clientes.any
            (fun o => !(o.id == cid) && o.rfc == (applyClienteUpdate c0 u).rfc)
        · simp [hv, hfind, hdup] at h
        · simp [hv, hfind, hdup] at h
          obtain ⟨hc, -⟩ := h
          subst hc
          refine ⟨?_, hb.1, hb.2⟩
          unfold applyClienteUpdate
          simp [hr]
    · simp [actualizar_cliente, hv] at h

/-- C1, witness: the amended theorem applied to concrete inputs — the
create payload with the bad tax id is rejected as 422, and the concrete
accepted update carries the supplied 12-character tax id. -/
theorem C1_rfc_validation_witness :
    crear_cliente store1 createBadRfc = (.validationError, store1) ∧
    cliente1BadRfc.rfc = "aaaaaaaaaaaa" :=
  ⟨(C1_rfc_validation store1 createBadRfc 1 updateBadRfc).1 (by decide),
   ((C1_rfc_validation store1 createBadRfc 1 updateBadRfc).2.2 store1BadRfc
      cliente1BadRfc "aaaaaaaaaaaa" rfl (by decide)).1⟩

/-! ### C2 -/

/-- A create payload with valid fields whose tax id equals `cliente1.rfc`. -/
def createDupRfc : ClienteCreate :=
  { razon_social := "Otra Empresa SA de CV"
    nombre_comercial := "Otra"
    rfc := "TEST123456ABC"
    correo_electronico := "otra@empresa.com"
    telefono := "5559876543" }

/-- C2, counterexample.  Creating a client whose tax id duplicates
`cliente1`'s passes pydantic validation (which has no uniqueness check);
`crear_cliente` inserts and commits unconditionally, so the `unique=True`
column constraint raises `IntegrityError`, which no handler catches: the
request ends as a generic 500 server fault, not the structured 422 the
claim asserts. -/
theorem C2_counterexample :
    crear_cliente store1 createDupRfc = (.serverError, store1) ∧
    (crear_cliente store1 createDupRfc).1.statusCode = 500 ∧
    (crear_cliente store1 createDupRfc).1 ≠ .validationError := by decide

/-- C2 (amended): tax ids stay unique across Clients — a valid create
payload whose tax id equals an existing client's is rejected by the store's
unique constraint and the store is unchanged — but the rejection surfaces as
a generic 500 server error (uncaught `IntegrityError`), not as a structured
422 validation rejection; and creation preserves distinctness of the stored
tax ids. -/
theorem C2_rfc_unique (st : Store) (p : ClienteCreate) :
    (validClienteCreate p = true →
      st.clientes.any (fun c => c.rfc == p.rfc) = true →
      crear_cliente st p = (.serverError, st)) ∧
    ((st.clientes.map (fun c => c.rfc)).Nodup →
      ((crear_cliente st p).2.clientes.map (fun c => c.rfc)).Nodup) := by
  constructor
  · intro hv hd
    simp [crear_cliente, hv, hd]
  · intro hn
    by_cases hv : validClienteCreate p
    · by_cases hd : st.clientes.any (fun c => c.rfc == p.rfc)
      · simpa [crear_cliente, hv, hd] using hn
      · have hnot : p.rfc ∉ st.clientes.map (fun c => c.rfc) := by
          intro hmem
          apply hd
          rw [List.any_eq_true]
          obtain ⟨c, hc, hrfc⟩ := List.mem_map.mp hmem
          exact ⟨c, hc, by rw [beq_iff_eq]; exact hrfc⟩
        simp only [crear_cliente, hv, hd, Bool.not_true, Bool.false_eq_true,
          if_false, ite_false, ite_true, List.map_append, List.map_cons,
          List.map_nil]
        rw [List.nodup_append]
        refine ⟨hn, List.nodup_singleton _, ?_⟩
        rw [List.disjoint_singleton]
        exact hnot
    · simpa [crear_cliente, hv] using hn

/-- C2, witness: the amended theorem at the concrete duplicate payload —
rejected with a 500 and the stored tax ids stay duplicate-free. -/
theorem C2_rfc_unique_witness :
    crear_cliente store1 createDupRfc = (.serverError, store1) ∧
    ((crear_cliente store1 createDupRfc).2.clientes.map (fun c => c.rfc)).Nodup :=
  ⟨(C2_rfc_unique store1 createDupRfc).1 (by decide) (by decide),
   (C2_rfc_unique store1 createDupRfc).2 (by decide)⟩

/-! ### C3 -/

/-- The `i`-th of 101 addresses all owned by client 1. -/
def domicilioRow (i : Nat) : Domicilio :=
  { id := i + 1
    domicilio := "d"
    colonia := "c"
    municipio := "m"
    estado := "e"
    tipo_direccion := .FACTURACION
    cliente_id := 1 }

/-- A store whose client 1 owns 101 addresses. -/
def storeManyDomicilios : Store :=
  { clientes := [cliente1]
    domicilios := (List.range 101).map domicilioRow
    productos := [] }

/-- Positional characterisation of `offset`/`limit` pagination over a list. -/
theorem take_drop_getElem (l : List α) (skip limit : Nat) :
    ((l.drop skip).take limit).length ≤ limit ∧
    ∀ i : Nat, ((l.drop skip).take limit)[i]? =
      if i < limit then l[skip + i]? else none := by
  refine ⟨List.length_take_le _ _, fun i => ?_⟩
  rw [List.getElem?_take]
  by_cases h : i < limit
  · simp [h, List.getElem?_drop]
  · simp [h]

/-- C3 (amended): the Client and Product list operations are paginated via
`skip`/`limit` — at most `limit` records, the `i`-th returned record being
record `skip + i` of the collection — but the Address list operation scoped
to a client takes no such parameters and returns EVERY address of that
client. -/
theorem C3_pagination (st : Store) (skip limit cliente_id : Nat) :
    (∃ l, listar_clientes st skip limit = (.ok 200 l, st) ∧
      l.length ≤ limit ∧
      ∀ i : Nat, l[i]? = if i < limit then st.clientes[skip + i]? else none) ∧
    (∃ l, listar_productos st skip limit = (.ok 200 l, st) ∧
      l.length ≤ limit ∧
      ∀ i : Nat, l[i]? = if i < limit then st.productos[skip + i]? else none) ∧
    listar_domicilios st cliente_id =
      (.ok 200 (st.domicilios.filter (fun d => d.cliente_id == cliente_id)), st) := by
  refine ⟨⟨_, rfl, take_drop_getElem _ _ _⟩, ⟨_, rfl, take_drop_getElem _ _ _⟩, rfl⟩

/-- C3, counterexample.  The claim says EVERY resource's list operation is
paginated via offset/limit.  `listar_domicilios` (`app/main.py` 145-149) has
no such parameters: on a store where client 1 owns 101 addresses it returns
all 101 records, more than the `limit = 100` default every paginated list of
this API uses. -/
theorem C3_counterexample :
    listar_domicilios storeManyDomicilios 1 =
      (.ok 200 storeManyDomicilios.domicilios, storeManyDomicilios) ∧
    100 < storeManyDomicilios.domicilios.length := by
  have hfil : storeManyDomicilios.domicilios.filter (fun d => d.cliente_id == 1)
      = storeManyDomicilios.domicilios := by
    rw [List.filter_eq_self]
    intro d hd
    simp only [storeManyDomicilios, List.mem_map, List.mem_range] at hd
    obtain ⟨i, -, rfl⟩ := hd
    rfl
  refine ⟨?_, ?_⟩
  · show (Outcome.ok 200 (storeManyDomicilios.domicilios.filter
        fun d => d.cliente_id == 1), storeManyDomicilios) = _
    rw [hfil]
  · simp [storeManyDomicilios]

/-! ### C4 -/

/-- A collector built in an environment holding sink credentials, with the
boto3 client successfully constructed. -/
def collectorWithSink : MetricsCollector :=
  MetricsCollector.init "CatalogosAPI" "production" "us-east-1"
    (some "AKIAEXAMPLEKEY") (some "examplesecret") none true

/-- C4, counterexample.  The claim says recording never fails the request
even when the sink is unreachable.  But the `try` blocks of `record_latency`
and `record_http_status` catch only `botocore.exceptions.ClientError` (an
error HTTP response from the service); an unreachable endpoint raises
`EndpointConnectionError`, a `BotoCoreError` that is NOT a `ClientError`, so
it escapes `record_latency`, crosses `metrics_middleware`, and the request
fails with a 500. -/
theorem C4_counterexample :
    collectorWithSink.cloudwatch = true ∧
    record_latency collectorWithSink .raisesOtherError = .raised ∧
    metrics_middleware_fails collectorWithSink 200 .raisesOtherError .succeeds
      = true := by decide

/-- C4 (amended): with no sink credentials in the environment the collector
never contacts the sink — both recorders only log locally and the metrics
middleware never fails the request, whatever the sink would have done; and
for any collector, a sink call that fails with a `ClientError` is swallowed
(logged) and does not fail the request — but a sink exception that is not a
`ClientError` (e.g. an unreachable endpoint) does propagate and fails the
request. -/
theorem C4_best_effort (nspace env region : String)
    (aws_key aws_secret aws_profile : Option String) (clientInitOk : Bool)
    (m : MetricsCollector) (code : Int) (s1 s2 : SinkBehavior) :
    (((envTruthy aws_key && envTruthy aws_secret) || envTruthy aws_profile)
        = false →
      record_latency (MetricsCollector.init nspace env region aws_key
        aws_secret aws_profile clientInitOk) s1 = .localOnly ∧
      record_http_status (MetricsCollector.init nspace env region aws_key
        aws_secret aws_profile clientInitOk) code s2 = .localOnly ∧
      metrics_middleware_fails (MetricsCollector.init nspace env region
        aws_key aws_secret aws_profile clientInitOk) code s1 s2 = false) ∧
    (s1 ≠ .raisesOtherError → s2 ≠ .raisesOtherError →
      metrics_middleware_fails m code s1 s2 = false) := by
  constructor
  · intro h
    refine ⟨?_, ?_, ?_⟩ <;>
      simp [MetricsCollector.init, h, record_latency, record_http_status,
        metrics_middleware_fails]
  · intro h1 h2
    by_cases hcw : m.cloudwatch <;> cases s1 <;> cases s2 <;>
      simp_all [record_latency, record_http_status, metrics_middleware_fails]

/-- C4, witness: concretely, with no credentials a raising sink still yields
local-only recording, and with a live sink client a `ClientError` from both
calls does not fail the request. -/
theorem C4_best_effort_witness :
    record_latency (MetricsCollector.init "CatalogosAPI" "local" "us-east-1"
      none none none true) .raisesOtherError = .localOnly ∧
    metrics_middleware_fails collectorWithSink 200 .raisesClientError
      .raisesClientError = false :=
  ⟨((C4_best_effort "CatalogosAPI" "local" "us-east-1" none none none true
      collectorWithSink 200 .raisesOtherError .raisesOtherError).1
      (by decide)).1,
   (C4_best_effort "CatalogosAPI" "local" "us-east-1" none none none true
      collectorWithSink 200 .raisesClientError .raisesClientError).2
      (by decide) (by decide)⟩

/-! ### C5 -/

/-- An address owned by `cliente1`. -/
def domicilio1 : Domicilio :=
  { id := 1
    domicilio := "Calle Test 123"
    colonia := "Centro"
    municipio := "Guadalajara"
    estado := "Jalisco"
    tipo_direccion := .FACTURACION
    cliente_id := 1 }

/-- A store with `cliente1` owning `domicilio1`. -/
def storeWithDomicilio : Store :=
  { clientes := [cliente1], domicilios := [domicilio1], productos := [] }

/-- C5 (confirmed): deleting a client that is present succeeds with 204 and,
through the `cascade="all, delete-orphan"` relationship, removes every
address whose `cliente_id` refers to that client; no such address remains,
the client itself is gone, and products are untouched. -/
theorem C5_cascade_delete (st : Store) (cliente_id : Nat)
    (h : st.clientes.any (fun c => c.id == cliente_id) = true) :
    ∃ st2, eliminar_cliente st cliente_id = (.ok 204 (), st2) ∧
      (∀ d ∈ st2.domicilios, d.cliente_id ≠ cliente_id) ∧
      (∀ c ∈ st2.clientes, c.id ≠ cliente_id) ∧
      st2.productos = st.productos := by
  refine ⟨{ st with
      clientes := st.clientes.filter (fun c => !(c.id == cliente_id)),
      domicilios := st.domicilios.filter (fun d => !(d.cliente_id == cliente_id)) },
    by simp [eliminar_cliente, h], ?_, ?_, rfl⟩
  · intro d hd
    have hp := List.of_mem_filter hd
    simpa using hp
  · intro c hc
    have hp := List.of_mem_filter hc
    simpa using hp

/-- C5, witness: deleting client 1 from the concrete store removes the
client and cascades to its address. -/
theorem C5_cascade_delete_witness :
    ∃ st2, eliminar_cliente storeWithDomicilio 1 = (.ok 204 (), st2) ∧
      (∀ d ∈ st2.domicilios, d.cliente_id ≠ 1) ∧
      (∀ c ∈ st2.clientes, c.id ≠ 1) ∧
      st2.productos = storeWithDomicilio.productos :=
  C5_cascade_delete storeWithDomicilio 1 (by decide)

/-! ### C6 -/

/-- A second client, with a distinct tax id. -/
def cliente2 : Cliente :=
  { id := 2
    razon_social := "Segunda Empresa SA de CV"
    nombre_comercial := "Segunda"
    rfc := "ABCD123456XYZ"
    correo_electronico := "dos@empresa.com"
    telefono := "5550000000" }

/-- A store holding `cliente1` and `cliente2`. -/
def storeTwoClientes : Store :=
  { clientes := [cliente1, cliente2], domicilios := [], productos := [] }

/-- A partial update that sets only the tax id, to `cliente2`'s tax id. -/
def updateDupRfc : ClienteUpdate :=
  { razon_social := none
    nombre_comercial := none
    rfc := some "ABCD123456XYZ"
    correo_electronico := none
    telefono := none }

/-- A partial update setting only the trade name (the scenario of
`test_actualizar_cliente`). -/
def updateNombre : ClienteUpdate :=
  { razon_social := none
    nombre_comercial := some "Updated Company"
    rfc := none
    correo_electronico := none
    telefono := none }

/-- A partial address update setting only the street field. -/
def updateCalle : DomicilioUpdate :=
  { domicilio := some "Calle Nueva 5"
    colonia := none
    municipio := none
    estado := none
    tipo_direccion := none }

/-- A concrete product row (the payload of `test_crear_producto`). -/
def producto1 : Producto :=
  { id := 1
    nombre := "Producto Test"
    unidad_medida := "PZA"
    precio_base := mkRat 201 2 }

/-- A store holding `producto1` alongside `cliente1` and `domicilio1`. -/
def storeFull : Store :=
  { clientes := [cliente1], domicilios := [domicilio1], productos := [producto1] }

/-- A partial product update setting only the price. -/
def updatePrecio : ProductoUpdate :=
  { nombre := none
    unidad_medida := none
    precio_base := some (5 : Rat) }

/-- Behaviour of `Option.getD`, the shape of every `exclude_unset` merge:
a supplied field overwrites, an absent field keeps the old value. -/
theorem getD_spec (o : Option α) (d : α) :
    (∀ x, o = some x → o.getD d = x) ∧ (o = none → o.getD d = d) := by
  cases o <;> simp

/-- C6, counterexample.  The claim says every partial update of an existing
record returns 200.  Updating existing client 1 with a payload that sets
only `rfc` — to the tax id already held by client 2 — passes `ClienteUpdate`
validation, but the commit violates the unique `rfc` column constraint:
`IntegrityError`, uncaught, a 500 response instead of 200. -/
theorem C6_counterexample :
    validClienteUpdate updateDupRfc = true ∧
    actualizar_cliente storeTwoClientes 1 updateDupRfc
      = (.serverError, storeTwoClientes) ∧
    (Outcome.serverError : Outcome Cliente).statusCode ≠ 200 := by decide

/-- C6 (amended): for every existing record and update payload that passes
validation and sets only a subset of fields — and, for Clients, does not set
the tax id to one held by a different client — the update returns 200 with
the record whose supplied fields are overwritten and all other fields (and
the id) unchanged. -/
theorem C6_partial_update (st : Store) (cid did pid : Nat)
    (u : ClienteUpdate) (v : DomicilioUpdate) (w : ProductoUpdate) :
    (∀ c, validClienteUpdate u = true →
      st.clientes.find? (fun x => x.id == cid) = some c →
      st.clientes.any (fun o => !(o.id == cid) &&
        o.rfc == (applyClienteUpdate c u).rfc) = false →
      ∃ st2, actualizar_cliente st cid u
          = (.ok 200 (applyClienteUpdate c u), st2) ∧
        (applyClienteUpdate c u).id = c.id ∧
        (∀ x, u.razon_social = some x →
          (applyClienteUpdate c u).razon_social = x) ∧
        (u.razon_social = none →
          (applyClienteUpdate c u).razon_social = c.razon_social) ∧
        (∀ x, u.nombre_comercial = some x →
          (applyClienteUpdate c u).nombre_comercial = x) ∧
        (u.nombre_comercial = none →
          (applyClienteUpdate c u).nombre_comercial = c.nombre_comercial) ∧
        (∀ x, u.rfc = some x → (applyClienteUpdate c u).rfc = x) ∧
        (u.rfc = none → (applyClienteUpdate c u).rfc = c.rfc) ∧
        (∀ x, u.correo_electronico = some x →
          (applyClienteUpdate c u).correo_electronico = x) ∧
        (u.correo_electronico = none →
          (applyClienteUpdate c u).correo_electronico = c.correo_electronico) ∧
        (∀ x, u.telefono = some x → (applyClienteUpdate c u).telefono = x) ∧
        (u.telefono = none → (applyClienteUpdate c u).telefono = c.telefono)) ∧
    (∀ d, validDomicilioUpdate v = true →
      st.domicilios.find? (fun x => x.id == did) = some d →
      ∃ st2, actualizar_domicilio st did v
          = (.ok 200 (applyDomicilioUpdate d v), st2) ∧
        (applyDomicilioUpdate d v).id = d.id ∧
        (applyDomicilioUpdate d v).cliente_id = d.cliente_id ∧
        (∀ x, v.domicilio = some x → (applyDomicilioUpdate d v).domicilio = x) ∧
        (v.domicilio = none → (applyDomicilioUpdate d v).domicilio = d.domicilio) ∧
        (∀ x, v.colonia = some x → (applyDomicilioUpdate d v).colonia = x) ∧
        (v.colonia = none → (applyDomicilioUpdate d v).colonia = d.colonia) ∧
        (∀ x, v.municipio = some x → (applyDomicilioUpdate d v).municipio = x) ∧
        (v.municipio = none → (applyDomicilioUpdate d v).municipio = d.municipio) ∧
        (∀ x, v.estado = some x → (applyDomicilioUpdate d v).estado = x) ∧
        (v.estado = none → (applyDomicilioUpdate d v).estado = d.estado) ∧
        (∀ x, v.tipo_direccion = some x →
          (applyDomicilioUpdate d v).tipo_direccion = x) ∧
        (v.tipo_direccion = none →
          (applyDomicilioUpdate d v).tipo_direccion = d.tipo_direccion)) ∧
    (∀ q, validProductoUpdate w = true →
      st.productos.find? (fun x => x.id == pid) = some q →
      ∃ st2, actualizar_producto st pid w
          = (.ok 200 (applyProductoUpdate q w), st2) ∧
        (applyProductoUpdate q w).id = q.id ∧
        (∀ x, w.nombre = some x → (applyProductoUpdate q w).nombre = x) ∧
        (w.nombre = none → (applyProductoUpdate q w).nombre = q.nombre) ∧
        (∀ x, w.unidad_medida = some x →
          (applyProductoUpdate q w).unidad_medida = x) ∧
        (w.unidad_medida = none →
          (applyProductoUpdate q w).unidad_medida = q.unidad_medida) ∧
        (∀ x, w.precio_base = some x → (applyProductoUpdate q w).precio_base = x) ∧
        (w.precio_base = none →
          (applyProductoUpdate q w).precio_base = q.precio_base)) := by
  refine ⟨?_, ?_, ?_⟩
  · intro c hv hfind hdup
    exact ⟨{ st with
        clientes := st.clientes.map fun o => if o.id == cid then applyClienteUpdate c u else o },
      by simp [actualizar_cliente, hv, hfind, hdup], rfl,
      (getD_spec u.razon_social c.razon_social).1,
      (getD_spec u.razon_social c.razon_social).2,
      (getD_spec u.nombre_comercial c.nombre_comercial).1,
      (getD_spec u.nombre_comercial c.nombre_comercial).2,
      (getD_spec u.rfc c.rfc).1,
      (getD_spec u.rfc c.rfc).2,
      (getD_spec u.correo_electronico c.correo_electronico).1,
      (getD_spec u.correo_electronico c.correo_electronico).2,
      (getD_spec u.telefono c.telefono).1,
      (getD_spec u.telefono c.telefono).2⟩
  · intro d hv hfind
    exact ⟨{ st with
        domicilios := st.domicilios.map fun o => if o.id == did then applyDomicilioUpdate d v else o },
      by simp [actualizar_domicilio, hv, hfind], rfl, rfl,
      (getD_spec v.domicilio d.domicilio).1,
      (getD_spec v.domicilio d.domicilio).2,
      (getD_spec v.colonia d.colonia).1,
      (getD_spec v.colonia d.colonia).2,
      (getD_spec v.municipio d.municipio).1,
      (getD_spec v.municipio d.municipio).2,
      (getD_spec v.estado d.estado).1,
      (getD_spec v.estado d.estado).2,
      (getD_spec v.tipo_direccion d.tipo_direccion).1,
      (getD_spec v.tipo_direccion d.tipo_direccion).2⟩
  · intro q hv hfind
    exact ⟨{ st with
        productos := st.productos.map fun o => if o.id == pid then applyProductoUpdate q w else o },
      by simp [actualizar_producto, hv, hfind], rfl,
      (getD_spec w.nombre q.nombre).1,
      (getD_spec w.nombre q.nombre).2,
      (getD_spec w.unidad_medida q.unidad_medida).1,
      (getD_spec w.unidad_medida q.unidad_medida).2,
      (getD_spec w.precio_base q.precio_base).1,
      (getD_spec w.precio_base q.precio_base).2⟩

/-- C6, witness: the amended theorem at concrete inputs — updating only the
client's trade name, the address's street and the product's price each
returns 200, overwrites exactly that field, and keeps the others. -/
theorem C6_partial_update_witness :
    (∃ st2, actualizar_cliente storeFull 1 updateNombre
        = (.ok 200 (applyClienteUpdate cliente1 updateNombre), st2) ∧
      (applyClienteUpdate cliente1 updateNombre).nombre_comercial
        = "Updated Company" ∧
      (applyClienteUpdate cliente1 updateNombre).razon_social
        = cliente1.razon_social) ∧
    (∃ st2, actualizar_domicilio storeFull 1 updateCalle
        = (.ok 200 (applyDomicilioUpdate domicilio1 updateCalle), st2) ∧
      (applyDomicilioUpdate domicilio1 updateCalle).domicilio
        = "Calle Nueva 5" ∧
      (applyDomicilioUpdate domicilio1 updateCalle).colonia
        = domicilio1.colonia) ∧
    (∃ st2, actualizar_producto storeFull 1 updatePrecio
        = (.ok 200 (applyProductoUpdate producto1 updatePrecio), st2) ∧
      (applyProductoUpdate producto1 updatePrecio).precio_base = (5 : Rat) ∧
      (applyProductoUpdate producto1 updatePrecio).nombre = producto1.nombre) := by
  obtain ⟨hc, hd, hp⟩ :=
    C6_partial_update storeFull 1 1 1 updateNombre updateCalle updatePrecio
  refine ⟨?_, ?_, ?_⟩
  · obtain ⟨st2, h1, -, -, hrs, hnc, -, -, -, -, -, -, -⟩ :=
      hc cliente1 (by decide) rfl (by decide)
    exact ⟨st2, h1, hnc "Updated Company" rfl, hrs rfl⟩
  · obtain ⟨st2, h1, -, -, hdom, -, -, hcol, -, -, -, -, -, -⟩ :=
      hd domicilio1 (by decide) rfl
    exact ⟨st2, h1, hdom "Calle Nueva 5" rfl, hcol rfl⟩
  · obtain ⟨st2, h1, -, -, hnom, -, -, hpre, -⟩ :=
      hp producto1 (by decide) rfl
    exact ⟨st2, h1, hpre (5 : Rat) rfl, hnom rfl⟩

/-! ### C7 -/

/-- C7 (confirmed): for each resource type, get-by-id on an id absent from
the respective table returns 404 with that resource's short not-found
message, and the store is unchanged. -/
theorem C7_get_not_found (st : Store) (i j k : Nat)
    (h1 : ∀ c ∈ st.clientes, c.id ≠ i)
    (h2 : ∀ d ∈ st.domicilios, d.id ≠ j)
    (h3 : ∀ p ∈ st.productos, p.id ≠ k) :
    obtener_cliente st i = (.notFound "Cliente no encontrado", st) ∧
    obtener_domicilio st j = (.notFound "Domicilio no encontrado", st) ∧
    obtener_producto st k = (.notFound "Producto no encontrado", st) := by
  refine ⟨?_, ?_, ?_⟩
  · have hf : st.clientes.find? (fun c => c.id == i) = none := by
      rw [List.find?_eq_none]
      intro c hc
      simpa using h1 c hc
    simp [obtener_cliente, hf]
  · have hf : st.domicilios.find? (fun d => d.id == j) = none := by
      rw [List.find?_eq_none]
      intro d hd
      simpa using h2 d hd
    simp [obtener_domicilio, hf]
  · have hf : st.productos.find? (fun p => p.id == k) = none := by
      rw [List.find?_eq_none]
      intro p hp
      simpa using h3 p hp
    simp [obtener_producto, hf]

/-- C7, witness: id 999999 (the spec's example) is absent from every table
of the concrete store, and each getter answers its 404. -/
theorem C7_get_not_found_witness :
    obtener_cliente storeFull 999999
      = (.notFound "Cliente no encontrado", storeFull) ∧
    obtener_domicilio storeFull 999999
      = (.notFound "Domicilio no encontrado", storeFull) ∧
    obtener_producto storeFull 999999
      = (.notFound "Producto no encontrado", storeFull) :=
  C7_get_not_found storeFull 999999 999999 999999
    (by decide) (by decide) (by decide)

/-! ### C8 -/

/-- A product payload with a negative price. -/
def productoBad : ProductoCreate :=
  { nombre := "Producto Test"
    unidad_medida := "PZA"
    precio_base := (-10 : Rat) }

/-- A product payload with a positive price and valid fields. -/
def productoGood : ProductoCreate :=
  { nombre := "Producto Test"
    unidad_medida := "PZA"
    precio_base := mkRat 201 2 }

/-- C8 (confirmed): product creation rejects every payload with
`precio_base ≤ 0` as a structured 422 and inserts nothing; every payload
with a positive price and valid name / unit-of-measure lengths is accepted
with 201 and appended to the store. -/
theorem C8_producto_price (st : Store) (p : ProductoCreate) :
    (p.precio_base ≤ 0 → crear_producto st p = (.validationError, st)) ∧
    (0 < p.precio_base → 1 ≤ p.nombre.length → p.nombre.length ≤ 255 →
      1 ≤ p.unidad_medida.length → p.unidad_medida.length ≤ 50 →
      ∃ q, crear_producto st p
          = (.ok 201 q, { st with productos := st.productos ++ [q] }) ∧
        q.nombre = p.nombre ∧ q.unidad_medida = p.unidad_medida ∧
        q.precio_base = p.precio_base) := by
  constructor
  · intro h
    have hnp : ¬ (0 : Rat) < p.precio_base := not_lt.mpr h
    have hv : validProductoCreate p = false := by
      unfold validProductoCreate
      simp [hnp]
    simp [crear_producto, hv]
  · intro h0 h1 h2 h3 h4
    have hv : validProductoCreate p = true := by
      unfold validProductoCreate
      simp [h0, h1, h2, h3, h4]
    refine ⟨{
        id := next_id (st.productos.map (fun x => x.id))
        nombre := p.nombre
        unidad_medida := p.unidad_medida
        precio_base := p.precio_base }, ?_, rfl, rfl, rfl⟩
    simp [crear_producto, hv]

/-- C8, witness: the concrete negative-price payload is rejected with the
store unchanged; the concrete positive-price payload is accepted with 201. -/
theorem C8_producto_price_witness :
    crear_producto storeFull productoBad = (.validationError, storeFull) ∧
    ∃ q, crear_producto storeFull productoGood
        = (.ok 201 q, { storeFull with
            productos := storeFull.productos ++ [q] }) ∧
      q.nombre = productoGood.nombre ∧
      q.unidad_medida = productoGood.unidad_medida ∧
      q.precio_base = productoGood.precio_base :=
  ⟨(C8_producto_price storeFull productoBad).1 (by decide),
   (C8_producto_price storeFull productoGood).2 (by decide) (by decide)
     (by decide) (by decide) (by decide)⟩

/-! ### C9 -/

/-- C9 (confirmed): `listar_domicilios` performs no existence check on the
client id; on a store whose addresses all reference existing clients, asking
for the addresses of a client id that exists nowhere returns 200 with the
empty list (not 404), and the store is unchanged. -/
theorem C9_list_missing_client (st : Store) (cid : Nat)
    (hfk : ∀ d ∈ st.domicilios, ∃ c ∈ st.clientes, c.id = d.cliente_id)
    (habs : ∀ c ∈ st.clientes, c.id ≠ cid) :
    listar_domicilios st cid = (.ok 200 [], st) := by
  have hnil : st.domicilios.filter (fun d => d.cliente_id == cid) = [] := by
    rw [List.filter_eq_nil_iff]
    intro d hd
    obtain ⟨c, hc, hcid⟩ := hfk d hd
    simp only [beq_iff_eq]
    intro heq
    exact habs c hc (by rw [hcid, heq])
  simp [listar_domicilios, hnil]

/-- C9, witness: the concrete store satisfies referential integrity and has
no client 999999; listing that client's addresses yields 200 and `[]`. -/
theorem C9_list_missing_client_witness :
    listar_domicilios storeFull 999999 = (.ok 200 [], storeFull) :=
  C9_list_missing_client storeFull 999999 (by decide) (by decide)

/-! ### C10 -/

/-- C10 (confirmed): the status bucketing function is total and exhaustive —
every integer code yields exactly one of the four bucket labels, each label
exactly characterising its range; in particular codes below 200, codes in
300-399 and codes of 600 and above map to "other" (and hence to none of the
2xx/4xx/5xx buckets). -/
theorem C10_status_buckets (code : Int) :
    (get_http_status_range code = "2xx" ∨ get_http_status_range code = "4xx" ∨
     get_http_status_range code = "5xx" ∨
     get_http_status_range code = "other") ∧
    (get_http_status_range code = "2xx" ↔ 200 ≤ code ∧ code < 300) ∧
    (get_http_status_range code = "4xx" ↔ 400 ≤ code ∧ code < 500) ∧
    (get_http_status_range code = "5xx" ↔ 500 ≤ code ∧ code < 600) ∧
    (get_http_status_range code = "other" ↔
      code < 200 ∨ (300 ≤ code ∧ code < 400) ∨ 600 ≤ code) := by
  unfold get_http_status_range
  split_ifs with h1 h2 h3 <;> refine ⟨?_, ?_, ?_, ?_, ?_⟩ <;>
    simp_all <;> omega

/-- C10, witness: a redirect maps to "other" and a 2xx code to "2xx". -/
theorem C10_status_buckets_witness :
    get_http_status_range 302 = "other" ∧ get_http_status_range 204 = "2xx" :=
  ⟨(C10_status_buckets 302).2.2.2.2.mpr (by omega),
   (C10_status_buckets 204).2.1.mpr (by omega)⟩

end Catalogos
